import Mathlib

/-!
Shallow embedding of the task store and derived-metric layer of
`src/app.py` (a Streamlit + SQLite to-do application).

Timestamps are modelled as `Int` seconds; the SQLite `date(...)` /
Python `datetime.date()` projection becomes floor-division by 86400.
The SQLite `tasks` table becomes a list of `Task` records together with
the next AUTOINCREMENT id.  SQL statements that touch the table are
translated operation by operation below, each doc comment naming the
Python function it embeds.
-/

namespace Lumos

/-- Seconds-per-day used to project a timestamp to its calendar date,
the embedding of `datetime.date()` / SQLite `date(...)`. -/
def secondsPerDay : Int := 86400

/-- Calendar-date component of a timestamp (floor division, so negative
timestamps still map to the correct earlier day). -/
def dateOf (t : Int) : Int := Int.fdiv t secondsPerDay

/-- One row of the `tasks` table created by `init_db` in `src/app.py`:
id, title, description, category, priority, due_date, completed,
created_at, completed_at.  `completed` is stored as 0/1 in SQLite and
modelled as `Bool`; nullable columns are `Option`. -/
structure Task where
  id : Nat
  title : String
  description : Option String
  category : String
  priority : Int
  due_date : Option Int
  completed : Bool
  created_at : Int
  completed_at : Option Int
deriving Repr, DecidableEq

/-- The persisted collection: the rows plus the next AUTOINCREMENT id
(SQLite starts at 1 and never reuses ids). -/
structure Store where
  tasks : List Task
  nextId : Nat
deriving Repr, DecidableEq

/-- The freshly initialised database of `init_db`. -/
def emptyStore : Store := { tasks := [], nextId := 1 }

/-- Embedding of `add_task` (src/app.py lines 44-52): a bare INSERT of
(title, description, category, priority, due_date); `completed`,
`created_at` and `completed_at` take the schema defaults 0, now, NULL.
No validation of any kind is performed. -/
def add_task (s : Store) (title : String) (description : Option String)
    (category : String) (priority : Int) (due_date : Option Int)
    (now : Int) : Store :=
  { tasks := s.tasks ++
      [{ id := s.nextId, title := title, description := description,
         category := category, priority := priority, due_date := due_date,
         completed := false, created_at := now, completed_at := none }],
    nextId := s.nextId + 1 }

/-- The keyword arguments accepted by `update_task` at its call sites:
each field is `none` when the caller did not supply it.  For nullable
columns a supplied value is itself an `Option`, so `some none` means
"explicitly set to NULL" (Python `None`). -/
structure UpdateFields where
  title : Option String := none
  description : Option (Option String) := none
  category : Option String := none
  priority : Option Int := none
  due_date : Option (Option Int) := none
  completed : Option Bool := none
  completed_at : Option (Option Int) := none
deriving Repr, DecidableEq

/-- The SET clause of `update_task`: each supplied field overwrites the
row's value, unsupplied fields are untouched. -/
def applyFields (f : UpdateFields) (t : Task) : Task :=
  { t with
    title := f.title.getD t.title,
    description := f.description.getD t.description,
    category := f.category.getD t.category,
    priority := f.priority.getD t.priority,
    due_date := f.due_date.getD t.due_date,
    completed := f.completed.getD t.completed,
    completed_at := f.completed_at.getD t.completed_at }

/-- Embedding of `update_task` (src/app.py lines 54-66): the UPDATE
statement `UPDATE tasks SET ... WHERE id = ?`.  Rows whose id does not
match are untouched; when no row matches the statement affects zero
rows and succeeds silently — the function is total and raises nothing. -/
def update_task (s : Store) (task_id : Nat) (f : UpdateFields) : Store :=
  { s with tasks := s.tasks.map (fun t => if t.id = task_id then applyFields f t else t) }

/-- Embedding of `delete_task` (src/app.py lines 68-73): the DELETE
statement `DELETE FROM tasks WHERE id = ?`.  When no row matches it
deletes zero rows and succeeds silently — total, raises nothing. -/
def delete_task (s : Store) (task_id : Nat) : Store :=
  { s with tasks := s.tasks.filter (fun t => t.id ≠ task_id) }

/-- Embedding of the completion-checkbox handler (src/app.py lines
300-306): checking calls `update_task(tid, completed=1,
completed_at=now)`, unchecking calls `update_task(tid, completed=0,
completed_at=None)`. -/
def toggle_completed (s : Store) (tid : Nat) (checked : Bool) (now : Int) : Store :=
  if checked then
    update_task s tid { completed := some true, completed_at := some (some now) }
  else
    update_task s tid { completed := some false, completed_at := some none }

/-- The `completed_at`-iff-`completed` invariant of the spec, as a
decidable check over the whole store. -/
def storeInv (s : Store) : Bool :=
  s.tasks.all (fun t => t.completed_at.isSome == t.completed)

/-- Python `str.lower()`: lower-case every character. -/
def pyLower (s : String) : String := String.mk (s.toList.map Char.toLower)

/-- Python substring containment `needle in hay` on character lists. -/
def infixOf (needle : List Char) : List Char → Bool
  | [] => needle.isEmpty
  | c :: t => needle.isPrefixOf (c :: t) || infixOf needle t

/-- Python `str.capitalize()`: first character upper-cased, the rest
lower-cased. -/
def capitalize (s : String) : String :=
  match s.toList with
  | [] => ""
  | c :: t => String.mk (c.toUpper :: t.map Char.toLower)

/-- The `work` keyword list of `KEYWORDS_TO_CATEGORY`. -/
def workKeywords : List String :=
  ["report", "meeting", "client", "deploy", "debug", "presentation", "email"]

/-- The `study` keyword list of `KEYWORDS_TO_CATEGORY`. -/
def studyKeywords : List String :=
  ["study", "revise", "exam", "assignment", "homework", "read", "practice"]

/-- The `health` keyword list of `KEYWORDS_TO_CATEGORY`. -/
def healthKeywords : List String :=
  ["doctor", "exercise", "gym", "run", "walk", "yoga", "meditate", "sleep"]

/-- The `personal` keyword list of `KEYWORDS_TO_CATEGORY`. -/
def personalKeywords : List String :=
  ["buy", "call", "reminder", "birthday", "pay", "invoice", "plan", "travel"]

/-- The `KEYWORDS_TO_CATEGORY` dict of src/app.py lines 100-105, in its
Python insertion (= iteration) order. -/
def KEYWORDS_TO_CATEGORY : List (String × List String) :=
  [("work", workKeywords), ("study", studyKeywords),
   ("health", healthKeywords), ("personal", personalKeywords)]

/-- Whether any keyword of the list occurs as a substring of `txt`. -/
def anyKeywordIn (keywords : List String) (txt : String) : Bool :=
  keywords.any (fun kw => infixOf kw.toList txt.toList)

/-- Embedding of `auto_categorize` (src/app.py lines 107-113): lower
the text, scan the categories in dict order, return the capitalized
name of the first category with a keyword substring hit, else Other. -/
def auto_categorize (text : String) : String :=
  let txt := pyLower text
  match KEYWORDS_TO_CATEGORY.find? (fun p => anyKeywordIn p.2 txt) with
  | some p => capitalize p.1
  | none => "Other"

/-- Embedding of `is_overdue` (src/app.py lines 144-151): false when no
due date, else compare the date component of the due timestamp with
the current date. -/
def is_overdue (due : Option Int) (todayDate : Int) : Bool :=
  match due with
  | none => false
  | some dt => decide (dateOf dt < todayDate)

/-- The overdue flag the task list computes per card (src/app.py line
294): `overdue = is_overdue(due) and not completed`. -/
def overdueFlag (t : Task) (todayDate : Int) : Bool :=
  is_overdue t.due_date todayDate && !t.completed

/-- Exact-arithmetic idealisation of `calc_progress` (src/app.py lines
153-158): 0 for the empty list, else `int(done / total * 100)` read
over the rationals, where truncating `done / total * 100` with
`0 ≤ done ≤ total` is the floor `done * 100 / total`, i.e. Nat
division.  The real program evaluates the product in IEEE double
precision, which can land one below this floor (29 of 100 gives 28,
not 29); the bit-exact model `calc_progress_fp` below captures that.
This idealisation is kept for the 0..100 bound, which is insensitive
to it: a rounded quotient of `done ≤ total` never exceeds 1.0, so the
float product never truncates above 100 either. -/
def calc_progress (tasks : List Task) : Nat :=
  if tasks.isEmpty then 0
  else
    let total := tasks.length
    let done := (tasks.filter (fun t => t.completed)).length
    done * 100 / total

/-- Floor of log2 of `n`, by structural recursion on a fuel argument
(so that kernel reduction works on literals). -/
def log2fl (fuel n : Nat) : Nat :=
  match fuel with
  | 0 => 0
  | f + 1 => if n < 2 then 0 else log2fl f (n / 2) + 1

/-- Floor of log2 of a positive natural. -/
def natLog2 (n : Nat) : Nat := log2fl n n

/-- Floor of log2 of the positive rational `a / b`: the unique `e`
with `2 ^ e ≤ a / b < 2 ^ (e + 1)`. -/
def floorLog2 (a b : Nat) : Int :=
  let d : Int := (natLog2 a : Int) - (natLog2 b : Int)
  if 0 ≤ d then
    if b * 2 ^ d.toNat ≤ a then d else d - 1
  else
    if b ≤ a * 2 ^ (-d).toNat then d else d - 1

/-- Round the nonnegative rational `a / b` to the nearest multiple of
the grid `2 ^ g`, ties to the even multiple (the IEEE-754 default
rounding); returns the multiple count, so the value is the result
times `2 ^ g`. -/
def roundGrid (a b : Nat) (g : Int) : Nat :=
  let num := a * 2 ^ (max 0 (-g)).toNat
  let den := b * 2 ^ (max 0 g).toNat
  let q := num / den
  let r := num % den
  if 2 * r < den then q
  else if den < 2 * r then q + 1
  else if q % 2 = 0 then q else q + 1

/-- IEEE binary64 rounding of the nonnegative rational `a / b`: the
result is the dyadic `m * 2 ^ g` nearest `a / b` with a 53-bit
significand (gradual underflow below `2 ^ (-1022)`; overflow is
unreachable in this file's uses). -/
def flDiv (a b : Nat) : Nat × Int :=
  if a = 0 then (0, 0)
  else
    let e := floorLog2 a b
    let g : Int := max (e - 52) (-1074)
    (roundGrid a b g, g)

/-- IEEE binary64 rounding of the nonnegative dyadic `n * 2 ^ g` (the
exact product of a float and an integer is such a dyadic). -/
def flDyadic (n : Nat) (g : Int) : Nat × Int :=
  if n = 0 then (0, 0)
  else
    let e : Int := (natLog2 n : Int) + g
    let g2 : Int := max (e - 52) (-1074)
    (roundGrid n 1 (g2 - g), g2)

/-- Python `int()` on a nonnegative double `m * 2 ^ g`: truncation
toward zero. -/
def truncDyadic (m : Nat) (g : Int) : Nat :=
  if 0 ≤ g then m * 2 ^ g.toNat else m / 2 ^ (-g).toNat

/-- The value Python computes for `int(done / total * 100)` in IEEE
double precision: round the quotient to binary64, multiply by 100
exactly and round again, then truncate. -/
def fpProgress (done total : Nat) : Nat :=
  let q := flDiv done total
  let p := flDyadic (q.1 * 100) q.2
  truncDyadic p.1 p.2

/-- Bit-exact embedding of `calc_progress` (src/app.py lines 153-158):
0 for the empty list, else `int(done / total * 100)` with the
division and the product evaluated in IEEE double precision exactly
as Python does. -/
def calc_progress_fp (tasks : List Task) : Nat :=
  if tasks.isEmpty then 0
  else fpProgress (tasks.filter (fun t => t.completed)).length tasks.length

/-- The distinct-completion-dates set read by `calc_streak`'s query
`SELECT DISTINCT date(completed_at) FROM tasks WHERE completed = 1 AND
completed_at IS NOT NULL`. -/
def completedDates (tasks : List Task) : Finset Int :=
  (tasks.filterMap (fun t =>
    if t.completed then t.completed_at.map dateOf else none)).toFinset

/-- The while loop of `calc_streak`: walk the cursor back one day at a
time while it is a completion date, counting the steps. -/
def streakFrom (D : Finset Int) (curr : Int) : Nat :=
  if h : curr ∈ D then 1 + streakFrom D (curr - 1) else 0
termination_by (D.filter (fun d => d ≤ curr)).card
decreasing_by
  apply Finset.card_lt_card
  rw [Finset.ssubset_iff_of_subset]
  · exact ⟨curr, Finset.mem_filter.mpr ⟨h, le_refl curr⟩,
      fun hc => absurd (Finset.mem_filter.mp hc).2 (by omega)⟩
  · intro x hx
    rcases Finset.mem_filter.mp hx with ⟨hxD, hxle⟩
    exact Finset.mem_filter.mpr ⟨hxD, by omega⟩

/-- Embedding of `calc_streak` (src/app.py lines 160-183): collect the
distinct completion dates and walk backward from today. -/
def calc_streak (tasks : List Task) (today : Int) : Nat :=
  streakFrom (completedDates tasks) today

/-- Python `str.strip()`: drop whitespace from both ends. -/
def pyStrip (s : String) : String :=
  String.mk (((s.toList.dropWhile Char.isWhitespace).reverse.dropWhile
    Char.isWhitespace).reverse)

/-- Outcome of submitting the add-task form: either the empty-title
warning `st.warning(...)` or a successful insert. -/
inductive AddOutcome
  | warned
  | added
deriving Repr, DecidableEq

/-- Embedding of the add-task form handler (src/app.py lines 250-264):
title is the stripped manual title if non-empty, else the stripped raw
text if non-empty, else missing; a missing title only shows a warning;
otherwise the category is resolved (inference over `title + " " +
desc`) and `add_task` is called with the stripped description or NULL.
`due_iso` stands for the already-parsed result of `parse_due_date`. -/
def handle_add (s : Store) (title_manual raw_text desc_manual : String)
    (cat_choice : String) (priority_choice : Int) (due_iso : Option Int)
    (now : Int) : Store × AddOutcome :=
  let title : Option String :=
    if pyStrip title_manual ≠ "" then some (pyStrip title_manual)
    else if pyStrip raw_text ≠ "" then some (pyStrip raw_text)
    else none
  match title with
  | none => (s, AddOutcome.warned)
  | some t =>
      let category :=
        if cat_choice = "Auto" then auto_categorize (t ++ " " ++ desc_manual)
        else cat_choice
      let desc := if pyStrip desc_manual = "" then none else some (pyStrip desc_manual)
      (add_task s t desc category priority_choice due_iso now, AddOutcome.added)

/-- The comparison realised by the SQL sort key `(due_date IS NULL,
due_date)` of `ORDER BY due_date IS NULL, due_date ASC` in
`fetch_tasks` (src/app.py lines 75-95): a row with a due date precedes
or ties every row without one, and two dated rows compare by date.
SQL NULLs compare equal inside a sort key, so two NULL-due rows tie. -/
def dueKeyLe (a b : Task) : Bool :=
  match a.due_date, b.due_date with
  | none, none => true
  | none, some _ => false
  | some _, none => true
  | some x, some y => decide (x ≤ y)

/-- The contract of `fetch_tasks(filter_by="all", sort_by="due_asc")`:
SQL guarantees the output is a permutation of the table that is sorted
under the key comparison, and nothing more — the relative order of
rows with equal keys is unspecified, so the result is a relation
between the stored table and the returned list. -/
def fetchDueAscSpec (db out : List Task) : Prop :=
  List.Perm db out ∧ List.Pairwise (fun a b => dueKeyLe a b = true) out

/-- The ordering the spec claims for DueDateAsc: lexicographic on
(due-date key, id), i.e. ties under the due-date key are broken by id
ascending.  (The SQL query itself carries no id tie-break; this
definition follows the spec words, for comparison.) -/
def dueIdKeyLe (a b : Task) : Bool :=
  match a.due_date, b.due_date with
  | none, none => decide (a.id ≤ b.id)
  | none, some _ => false
  | some _, none => true
  | some x, some y => decide (x < y) || (decide (x = y) && decide (a.id ≤ b.id))

/-- The category-inference procedure transcribed from the spec words
(section 4.1.1): lower-case the input, test Work, Study, Health,
Personal in that declared order, return the first category with a
keyword substring hit, else Other.  Kept separate from the code
embedding `auto_categorize` so the two can be compared. -/
def autoCategorizeSpec (text : String) : String :=
  let txt := pyLower text
  if anyKeywordIn workKeywords txt then "Work"
  else if anyKeywordIn studyKeywords txt then "Study"
  else if anyKeywordIn healthKeywords txt then "Health"
  else if anyKeywordIn personalKeywords txt then "Personal"
  else "Other"

/-- Rounding to the nearest integer (half rounded up), transcribed from
the claim wording `round(100 * completed_count / total_count)`; used
only to compare against what `calc_progress` computes.  (Python's
`round` rounds halves to even, but no comparison below sits on a
half.) -/
def roundNearest (num den : Nat) : Nat := (2 * num + den) / (2 * den)

/-- A completed task fixture: completed at 01:00 on the given day
(counted in days since the epoch). -/
def mkDone (i : Nat) (day : Int) : Task :=
  { id := i, title := "t", description := none, category := "Other", priority := 3,
    due_date := none, completed := true, created_at := 0,
    completed_at := some (day * 86400 + 3600) }

/-- A pending task fixture. -/
def mkPending (i : Nat) : Task :=
  { id := i, title := "t", description := none, category := "Other", priority := 3,
    due_date := none, completed := false, created_at := 0, completed_at := none }

/-- Streak scenario: completions on 2024-01-08, 2024-01-09 and
2024-01-10 (epoch days 19730, 19731, 19732). -/
def scenarioA : List Task := [mkDone 1 19730, mkDone 2 19731, mkDone 3 19732]

/-- Streak scenario with the 2024-01-09 completion missing. -/
def scenarioB : List Task := [mkDone 1 19730, mkDone 3 19732]

/-- A completed task due at 01:00 the day before 19732 (= 2024-01-10),
the spec's "due yesterday and completed" scenario. -/
def yesterdayDone : Task :=
  { mkDone 9 19731 with due_date := some (19731 * 86400 + 3600) }

/-- A store holding exactly one pending task, id 1. -/
def s0 : Store := { tasks := [mkPending 1], nextId := 2 }

/-- Two of three tasks completed: exact progress 200/3 = 66.66…, where
truncation (66) and rounding (67) disagree. -/
def exThird : List Task := [mkDone 1 19730, mkDone 2 19730, mkPending 3]

/-- Five completed and five pending tasks, the spec's 50% scenario. -/
def fiveFive : List Task :=
  [mkDone 1 19730, mkDone 2 19730, mkDone 3 19730, mkDone 4 19730, mkDone 5 19730,
   mkPending 6, mkPending 7, mkPending 8, mkPending 9, mkPending 10]

/-- 29 completed tasks of 100: here the double-precision product
`29/100 * 100 = 28.999999999999996` truncates to 28 while the exact
floor of `100 * 29 / 100` is 29. -/
def ex29of100 : List Task :=
  ((List.range 29).map (fun i => mkDone (i + 1) 19730)) ++
    ((List.range 71).map (fun i => mkPending (i + 30)))

/-- A pending task fixture with a due date. -/
def dueTask (i : Nat) (d : Int) : Task :=
  { mkPending i with due_date := some d }

/-- The row the add-task form handler inserts once a non-empty title
`titleStr` has been resolved (spelled out for reuse in proofs; it is
exactly the row `handle_add` passes to `add_task`). -/
def formTask (s : Store) (titleStr dm cc : String) (pc : Int) (di : Option Int)
    (now : Int) : Task :=
  { id := s.nextId, title := titleStr,
    description := if pyStrip dm = "" then none else some (pyStrip dm),
    category := if cc = "Auto" then auto_categorize (titleStr ++ " " ++ dm) else cc,
    priority := pc, due_date := di, completed := false, created_at := now,
    completed_at := none }

/-- Unfolding equation of the while loop `streakFrom` (well-founded
definitions do not unfold definitionally). -/
theorem streakFrom_eq (D : Finset Int) (curr : Int) :
    streakFrom D curr = if curr ∈ D then 1 + streakFrom D (curr - 1) else 0 := by
  rw [streakFrom]
  split <;> rfl

/-- The loop invariant of `streakFrom`: every one of the counted days,
walking back from the cursor, lies in the date set, and the first day
past the count does not. -/
theorem streakFrom_spec (D : Finset Int) (curr : Int) :
    (∀ k : Nat, k < streakFrom D curr → (curr - k) ∈ D) ∧
      (curr - streakFrom D curr) ∉ D := by
  induction curr using streakFrom.induct D with
  | case1 curr h ih =>
      rw [streakFrom_eq, if_pos h]
      constructor
      · intro k hk
        match k with
        | 0 => simpa using h
        | j + 1 =>
            have hj : j < streakFrom D (curr - 1) := by omega
            have := ih.1 j hj
            have heq : curr - ((j : Nat) + 1 : Nat) = curr - 1 - (j : Nat) := by
              push_cast; ring
            rwa [heq]
      · have h2 := ih.2
        have heq : curr - ((1 : Nat) + streakFrom D (curr - 1) : Nat) =
            curr - 1 - (streakFrom D (curr - 1) : Nat) := by push_cast; ring
        rwa [heq]
  | case2 curr h =>
      rw [streakFrom_eq, if_neg h]
      exact ⟨fun k hk => absurd hk (by omega), by simpa using h⟩

/-- C1 counterexample: `update_task` does not maintain the claimed
invariant.  On a store satisfying the invariant, an update that sets
`completed = 1` without supplying `completed_at` (exactly what the raw
`update_task` permits) leaves `completed_at` NULL next to
`completed = true`, so the invariant does not hold after every store
update operation. -/
theorem C1_counterexample :
    storeInv s0 = true ∧
      storeInv (update_task s0 1 { completed := some true }) = false := by decide

/-- C1 (amended): the invariant `completed_at` non-null iff `completed`
is preserved by insertion (`add_task` inserts `completed = false`,
`completed_at = NULL`), by deletion, and by the completion-checkbox
handler, which always supplies `completed_at = now` together with
`completed = 1` and `completed_at = NULL` together with
`completed = 0`; it is not enforced by `update_task` itself. -/
theorem C1_invariant_amended :
    (∀ (s : Store) (title : String) (desc : Option String) (cat : String)
        (pr : Int) (due : Option Int) (now : Int), storeInv s = true →
        storeInv (add_task s title desc cat pr due now) = true) ∧
    (∀ (s : Store) (tid : Nat), storeInv s = true →
        storeInv (delete_task s tid) = true) ∧
    (∀ (s : Store) (tid : Nat) (checked : Bool) (now : Int), storeInv s = true →
        storeInv (toggle_completed s tid checked now) = true) := by
  refine ⟨?_, ?_, ?_⟩
  · intro s title desc cat pr due now h
    simpa [storeInv, add_task] using h
  · intro s tid h
    simp only [storeInv, delete_task, List.all_eq_true] at h ⊢
    intro t ht
    exact h t (List.mem_of_mem_filter ht)
  · intro s tid checked now h
    simp only [storeInv, List.all_eq_true] at h
    cases checked <;>
    · simp only [storeInv, toggle_completed, update_task, Bool.false_eq_true,
        if_true, if_false, List.all_eq_true]
      intro t ht
      rw [List.mem_map] at ht
      obtain ⟨u, hu, rfl⟩ := ht
      by_cases hid : u.id = tid
      · simp [hid, applyFields]
      · simp only [if_neg hid]
        exact h u hu

/-- C1 witness: the amended preservation statements applied at concrete
stores. -/
theorem C1_invariant_amended_witness :
    storeInv (add_task emptyStore "a" none "Other" 3 none 0) = true ∧
      storeInv (delete_task s0 1) = true ∧
      storeInv (toggle_completed s0 1 true 5) = true :=
  ⟨C1_invariant_amended.1 emptyStore "a" none "Other" 3 none 0 (by decide),
   C1_invariant_amended.2.1 s0 1 (by decide),
   C1_invariant_amended.2.2 s0 1 true 5 (by decide)⟩

/-- C2 counterexample: updating an id that is not in the store raises
no error at all — the embedded `update_task` (a total function, like
the underlying UPDATE statement, which affects zero rows) returns the
store unchanged instead of failing with NotFoundError. -/
theorem C2_counterexample :
    update_task { tasks := [mkPending 1], nextId := 2 } 2 { title := some "x" } =
      { tasks := [mkPending 1], nextId := 2 } := by decide

/-- C2 (amended): `update_task` with an id absent from the store
silently leaves the stored collection completely unchanged (no row
modified, added or removed) — and raises nothing. -/
theorem C2_update_amended (s : Store) (tid : Nat) (f : UpdateFields)
    (h : ∀ t ∈ s.tasks, t.id ≠ tid) : update_task s tid f = s := by
  cases s with
  | mk ts n =>
      simp only [update_task, Store.mk.injEq, and_true]
      induction ts with
      | nil => rfl
      | cons a l ih =>
          simp only [List.map_cons, List.cons.injEq]
          constructor
          · rw [if_neg]
            exact h a (by simp)
          · exact ih (fun t ht => h t (by simp [ht]))

/-- C2 witness: the amended no-op statement applied at a concrete
store and unknown id. -/
theorem C2_update_amended_witness :
    update_task emptyStore 1 { title := some "x" } = emptyStore :=
  C2_update_amended emptyStore 1 { title := some "x" } (by decide)

/-- C3 counterexample: `add_task` itself performs no validation — an
empty title is inserted as a task — and the form handler rejects an
all-whitespace submission with a warning outcome, not a
ValidationError, leaving the store unchanged. -/
theorem C3_counterexample :
    (add_task emptyStore "" none "Other" 3 none 0).tasks.length = 1 ∧
      handle_add emptyStore "" "" "" "Auto" 3 none 0 = (emptyStore, AddOutcome.warned) := by
  decide

/-- C3 (amended): when both title inputs trim to empty the add-form
handler adds no task and only warns; when a trimmed title is non-empty
it appends exactly one task, which has `completed = false` and
`completed_at = NULL`.  `add_task` itself never validates. -/
theorem C3_create_amended :
    (∀ (s : Store) (tman rtext dm cc : String) (pc : Int) (di : Option Int) (now : Int),
        pyStrip tman = "" → pyStrip rtext = "" →
          handle_add s tman rtext dm cc pc di now = (s, AddOutcome.warned)) ∧
    (∀ (s : Store) (tman rtext dm cc : String) (pc : Int) (di : Option Int) (now : Int),
        pyStrip tman ≠ "" ∨ pyStrip rtext ≠ "" →
          ∃ newTask : Task,
            handle_add s tman rtext dm cc pc di now =
              ({ tasks := s.tasks ++ [newTask], nextId := s.nextId + 1 },
                AddOutcome.added) ∧
              newTask.completed = false ∧ newTask.completed_at = none) := by
  constructor
  · intro s tman rtext dm cc pc di now h1 h2
    simp [handle_add, h1, h2]
  · intro s tman rtext dm cc pc di now h
    by_cases h1 : pyStrip tman = ""
    · have h2 : pyStrip rtext ≠ "" := by tauto
      exact ⟨formTask s (pyStrip rtext) dm cc pc di now,
        by simp [handle_add, h1, h2, add_task, formTask], rfl, rfl⟩
    · exact ⟨formTask s (pyStrip tman) dm cc pc di now,
        by simp [handle_add, h1, add_task, formTask], rfl, rfl⟩

/-- C3 witness: the amended statements applied at a whitespace-only
submission and at a concrete non-empty title. -/
theorem C3_create_amended_witness :
    handle_add emptyStore " " "" "x" "Auto" 3 none 0 = (emptyStore, AddOutcome.warned) ∧
      ∃ newTask : Task,
        handle_add emptyStore "hello" "" "" "Work" 3 none 5 =
          ({ tasks := emptyStore.tasks ++ [newTask], nextId := emptyStore.nextId + 1 },
            AddOutcome.added) ∧
          newTask.completed = false ∧ newTask.completed_at = none :=
  ⟨C3_create_amended.1 emptyStore " " "" "x" "Auto" 3 none 0 (by decide) (by decide),
   C3_create_amended.2 emptyStore "hello" "" "" "Work" 3 none 5 (Or.inl (by decide))⟩

/-- C4 counterexample: with 2 of 3 tasks completed the program,
modelled bit-exactly in IEEE double precision, returns
`int(2/3*100) = 66`, while rounding `200/3 = 66.66…` to the nearest
integer gives 67 — `calc_progress` truncates, it does not round. -/
theorem C4_counterexample :
    calc_progress_fp exThird = 66 ∧
      roundNearest (100 * (exThird.filter (fun t => t.completed)).length)
        exThird.length = 67 := by decide

set_option maxRecDepth 8000 in
/-- C4 (amended): `calc_progress` truncates the double-precision
product `done / total * 100` rather than rounding it to the nearest
integer.  On the bit-exact IEEE model: the empty list gives 0 and
5 completed of 10 gives exactly 50, as claimed; but 2 of 3 gives 66
where rounding gives 67, and the float evaluation can even fall below
the exact floor — 29 of 100 gives 28 (the product evaluates to
28.999999999999996) where the exact-arithmetic idealisation
`calc_progress` gives floor 29. -/
theorem C4_progress_amended :
    calc_progress_fp [] = 0 ∧
    calc_progress_fp fiveFive = 50 ∧
    calc_progress_fp exThird = 66 ∧
    calc_progress_fp ex29of100 = 28 ∧
    calc_progress ex29of100 = 29 := by decide

/-- C5: the streak walk counts consecutive days backwards from today —
every counted day is a completion date and the first day past the
count is not — and the two spec scenarios hold: completions on epoch
days 19730..19732 (2024-01-08..10) with today 19732 give streak 3, and
with 19731 (2024-01-09) missing give streak 1. -/
theorem C5_streak :
    (∀ (D : Finset Int) (today : Int),
        (∀ k : Nat, k < streakFrom D today → (today - k) ∈ D) ∧
          (today - streakFrom D today) ∉ D) ∧
    calc_streak scenarioA 19732 = 3 ∧ calc_streak scenarioB 19732 = 1 := by
  refine ⟨streakFrom_spec, ?_, ?_⟩ <;> simp +decide [calc_streak, streakFrom_eq]

/-- C6: `auto_categorize` coincides with the spec's description —
lower-case, first category in the declared Work, Study, Health,
Personal order with a keyword substring hit, else Other — on every
input; concretely "Submit report to client" and "REPORT" map to Work,
an input with three Study keywords but one Work keyword still maps to
Work (first-in-order, not most-matches), and a no-keyword input maps
to Other. -/
theorem C6_categorize :
    (∀ text : String, auto_categorize text = autoCategorizeSpec text) ∧
    auto_categorize "Submit report to client" = "Work" ∧
    auto_categorize "REPORT" = "Work" ∧
    auto_categorize "read assignment homework email" = "Work" ∧
    auto_categorize "xyzzy" = "Other" := by
  refine ⟨fun text => ?_, by decide, by decide, by decide, by decide⟩
  unfold auto_categorize autoCategorizeSpec KEYWORDS_TO_CATEGORY
  simp only [List.find?]
  cases hw : anyKeywordIn workKeywords (pyLower text) <;>
    cases hs : anyKeywordIn studyKeywords (pyLower text) <;>
      cases hh : anyKeywordIn healthKeywords (pyLower text) <;>
        cases hp : anyKeywordIn personalKeywords (pyLower text) <;>
          simp [hw, hs, hh, hp, capitalize]

/-- C7 counterexample: the claim's id-ascending tie-break is not
guaranteed.  For two NULL-due tasks, the list with id 2 before id 1 is
a perfectly valid result of `ORDER BY due_date IS NULL, due_date ASC`
(a permutation sorted under the due-date key), yet it violates the
claimed (due-key, id) lexicographic order. -/
theorem C7_counterexample :
    fetchDueAscSpec [mkPending 1, mkPending 2] [mkPending 2, mkPending 1] ∧
      ¬ List.Pairwise (fun a b => dueIdKeyLe a b = true)
          [mkPending 2, mkPending 1] :=
  ⟨⟨by decide, by decide⟩, by decide⟩

/-- C7 (amended): any valid result of the DueDateAsc query places
every NULL-due task after every dated task and lists dated tasks with
non-decreasing due dates; the relative order of ties is unspecified by
the query (no id tie-break). -/
theorem C7_due_sort_amended (db out : List Task) (h : fetchDueAscSpec db out) :
    List.Pairwise (fun a b =>
      (a.due_date = none → b.due_date = none) ∧
        ∀ x y : Int, a.due_date = some x → b.due_date = some y → x ≤ y) out := by
  refine h.2.imp ?_
  intro a b hab
  constructor
  · intro ha
    cases hb : b.due_date with
    | none => rfl
    | some y =>
        rw [dueKeyLe, ha, hb] at hab
        exact absurd hab (by simp)
  · intro x y hx hy
    rw [dueKeyLe, hx, hy] at hab
    simpa using hab

/-- C7 witness: the amended ordering guarantees applied to a concrete
valid query result. -/
theorem C7_due_sort_amended_witness :
    List.Pairwise (fun a b =>
      (a.due_date = none → b.due_date = none) ∧
        ∀ x y : Int, a.due_date = some x → b.due_date = some y → x ≤ y)
      [dueTask 2 100, mkPending 1] :=
  C7_due_sort_amended [mkPending 1, dueTask 2 100] [dueTask 2 100, mkPending 1]
    ⟨by decide, by decide⟩

/-- C8: the task-card overdue flag is true exactly when a due date is
present, its date component is strictly before the current date, and
the task is not completed; in particular the completed task due
yesterday (due day 19731, today 19732) is not overdue. -/
theorem C8_overdue :
    (∀ (t : Task) (d : Int), overdueFlag t d = true ↔
        ((∃ x, t.due_date = some x ∧ dateOf x < d) ∧ t.completed = false)) ∧
    overdueFlag yesterdayDone 19732 = false := by
  constructor
  · intro t d
    cases hx : t.due_date with
    | none => simp [overdueFlag, is_overdue, hx]
    | some x => simp [overdueFlag, is_overdue, hx]
  · decide

/-- C9 counterexample: deleting an id absent from the store raises no
error — the embedded `delete_task` (total, like the DELETE statement,
which removes zero rows) silently succeeds and leaves the store
unchanged, instead of failing with NotFoundError. -/
theorem C9_counterexample : delete_task emptyStore 1 = emptyStore := by decide

/-- C9 (amended): `delete_task` with an id absent from the store
silently leaves the store unchanged — idempotent success rather than a
NotFoundError. -/
theorem C9_delete_amended (s : Store) (tid : Nat) (h : ∀ t ∈ s.tasks, t.id ≠ tid) :
    delete_task s tid = s := by
  cases s with
  | mk ts n =>
      simp only [delete_task, Store.mk.injEq, and_true]
      rw [List.filter_eq_self]
      intro a ha
      simpa using h a ha

/-- C9 witness: the amended no-op statement applied at a concrete
store and absent id. -/
theorem C9_delete_amended_witness : delete_task emptyStore 7 = emptyStore :=
  C9_delete_amended emptyStore 7 (by decide)

/-- C10: `calc_progress` is a total function (the empty list is
guarded, so nothing is raised) whose value never exceeds 100 — and, as
a `Nat`, is never below 0 — for every list of tasks. -/
theorem C10_progress_bounds (tasks : List Task) : calc_progress tasks ≤ 100 := by
  unfold calc_progress
  split
  · omega
  · have hle : (tasks.filter (fun t => t.completed)).length ≤ tasks.length :=
      List.length_filter_le _ _
    have hpos : 0 < tasks.length := by
      rename_i hne
      cases tasks with
      | nil => simp at hne
      | cons a l => simp
    calc (tasks.filter (fun t => t.completed)).length * 100 / tasks.length
        ≤ tasks.length * 100 / tasks.length := by
          apply Nat.div_le_div_right
          exact Nat.mul_le_mul_right 100 hle
      _ = 100 := Nat.mul_div_cancel_left 100 hpos

end Lumos
